import Mathlib

/-!
Verification of the weather-alert MCP server (`src/server/weather.py`).

The Python module is embedded shallowly:

* JSON documents are the inductive type `Json`; Python dictionaries are
  association lists whose keys are understood to be distinct (a Python
  `dict` never holds a key twice).
* Python truthiness (`not data`, `if not data["features"]`) is `truthy`.
* Subscripting `d[k]`, membership `k in d`, the method call `d.get(k, v)`
  and iteration `for x in d` are the `Except`-valued functions
  `pyGetItem`, `pyContains`, `pyGet` and `pyIter`; the `PyErr` error
  constructors stand for the `KeyError` / `TypeError` / `AttributeError`
  exceptions Python raises on the corresponding misuse.
* The HTTP layer is an oracle `http : Request → Option Json`; `none`
  covers every failure `make_nws_request` swallows (network error,
  non-2xx status via `raise_for_status`, malformed body, timeout).
* f-string interpolation applies `str()`; `pyStr` embeds it.  On nested
  containers Python falls back to `repr` of the elements; `pyRepr`
  models that structurally (string quoting is reproduced, escape
  sequences inside quoted strings are not — no claim depends on them).
-/

/-- A JSON value, as produced by `response.json()`.  Numbers are modelled
as integers; no claim involves fractional numbers. -/
inductive Json where
  | null
  | bool (b : Bool)
  | num (n : Int)
  | str (s : String)
  | arr (elems : List Json)
  | obj (members : List (String × Json))
deriving Repr

/-- The Python exceptions the embedded code can raise. -/
inductive PyErr where
  | keyError
  | typeError
  | attributeError
deriving Repr, DecidableEq

/-- Python truthiness of a JSON value: `None`, `False`, `0`, `""`, `[]`
and `\x7b\x7d` are falsy, everything else truthy. -/
def truthy : Json → Bool
  | .null => false
  | .bool b => b
  | .num n => n != 0
  | .str s => s != ""
  | .arr elems => !elems.isEmpty
  | .obj members => !members.isEmpty

/-- Lookup in a Python dictionary, modelled on its association list. -/
def dictLookup : List (String × Json) → String → Option Json
  | [], _ => none
  | (k, v) :: rest, key => if k = key then some v else dictLookup rest key

/-- The single-quote character, used by the Python `repr` of strings. -/
def squote : String := String.singleton (Char.ofNat 39)

mutual

/-- Python `repr()` of a JSON value (structure only: strings are quoted
but escape sequences inside them are not reproduced). -/
def pyRepr : Json → String
  | .null => "None"
  | .bool b => if b then "True" else "False"
  | .num n => toString n
  | .str s => squote ++ s ++ squote
  | .arr elems => "[" ++ pyReprList elems ++ "]"
  | .obj members => "\x7b" ++ pyReprObj members ++ "\x7d"

/-- `repr` of the elements of a list, comma separated. -/
def pyReprList : List Json → String
  | [] => ""
  | [x] => pyRepr x
  | x :: y :: rest => pyRepr x ++ ", " ++ pyReprList (y :: rest)

/-- `repr` of the members of a dictionary, comma separated. -/
def pyReprObj : List (String × Json) → String
  | [] => ""
  | [(k, v)] => squote ++ k ++ squote ++ ": " ++ pyRepr v
  | (k, v) :: m :: rest => squote ++ k ++ squote ++ ": " ++ pyRepr v ++ ", " ++ pyReprObj (m :: rest)

end

/-- Python `str()` of a JSON value, as applied by f-string interpolation. -/
def pyStr : Json → String
  | .null => "None"
  | .bool b => if b then "True" else "False"
  | .num n => toString n
  | .str s => s
  | .arr elems => pyRepr (.arr elems)
  | .obj members => pyRepr (.obj members)

/-- Python subscripting `value[key]` with a string key: a dictionary
yields the entry or raises `KeyError`; every other value raises
`TypeError` (lists and strings take integer indices only). -/
def pyGetItem (j : Json) (key : String) : Except PyErr Json :=
  match j with
  | .obj members =>
    match dictLookup members key with
    | some v => .ok v
    | none => .error .keyError
  | _ => .error .typeError

/-- The method call `value.get(key, default)`: defined on dictionaries,
`AttributeError` on every other value. -/
def pyGet (j : Json) (key : String) (dflt : Json) : Except PyErr Json :=
  match j with
  | .obj members => .ok ((dictLookup members key).getD dflt)
  | _ => .error .attributeError

/-- Is `pat` a contiguous substring of `s` (Python `pat in s` on strings)? -/
def isSubList (pat : List Char) : List Char → Bool
  | [] => pat.isEmpty
  | c :: rest => pat.isPrefixOf (c :: rest) || isSubList pat rest

/-- Python membership `key in value` for a string key: key lookup on a
dictionary, element equality on a list (a string equals only the same
string), substring test on a string, `TypeError` on non-iterables. -/
def pyContains (key : String) (j : Json) : Except PyErr Bool :=
  match j with
  | .obj members => .ok (dictLookup members key).isSome
  | .arr elems => .ok (elems.any fun e => match e with | .str s => s == key | _ => false)
  | .str s => .ok (isSubList key.data s.data)
  | _ => .error .typeError

/-- Python iteration `for x in value`: a list yields its elements, a
string its characters, a dictionary its keys; `TypeError` otherwise. -/
def pyIter (j : Json) : Except PyErr (List Json) :=
  match j with
  | .arr elems => .ok elems
  | .str s => .ok (s.data.map fun c => Json.str (String.singleton c))
  | .obj members => .ok (members.map fun p => Json.str p.1)
  | _ => .error .typeError

/-- Python `sep.join(parts)`. -/
def pyJoin (sep : String) : List String → String
  | [] => ""
  | [s] => s
  | s :: t :: rest => s ++ sep ++ pyJoin sep (t :: rest)

/-- An outbound HTTP request as `make_nws_request` issues it: URL, the
two headers, and the timeout in seconds (`timeout=30.0` in the source). -/
structure Request where
  url : String
  user_agent : String
  accept : String
  timeout_s : Nat
deriving Repr, DecidableEq

/-- `NWS_API_BASE` from the source. -/
def NWS_API_BASE : String := "https://api.weather.gov"

/-- `USER_AGENT` from the source. -/
def USER_AGENT : String := "weather-app/1.0"

/-- `make_nws_request(url)`: issues one GET with the fixed headers and
timeout and hands every failure back as `none`.  The HTTP layer itself
is the oracle `http`. -/
def make_nws_request (http : Request → Option Json) (url : String) : Option Json :=
  http (Request.mk url USER_AGENT "application/geo+json" 30)

/-- `format_alert(feature)`: reads `feature["properties"]` (unguarded)
and renders the five fields through `props.get` into the triple-quoted
template, whose leading newline, 8-space indents and trailing 8 spaces
are part of the literal. -/
def format_alert (feature : Json) : Except PyErr String :=
  match pyGetItem feature "properties" with
  | .error e => .error e
  | .ok props =>
    match pyGet props "event" (Json.str "Unknown") with
    | .error e => .error e
    | .ok event =>
      match pyGet props "areaDesc" (Json.str "Unknown") with
      | .error e => .error e
      | .ok areaDesc =>
        match pyGet props "severity" (Json.str "Unknown") with
        | .error e => .error e
        | .ok severity =>
          match pyGet props "description" (Json.str "No description available") with
          | .error e => .error e
          | .ok description =>
            match pyGet props "instruction" (Json.str "No specific instructions provided") with
            | .error e => .error e
            | .ok instruction =>
              .ok ("\n        Event: " ++ pyStr event ++
                   "\n        Area: " ++ pyStr areaDesc ++
                   "\n        Severity: " ++ pyStr severity ++
                   "\n        Description: " ++ pyStr description ++
                   "\n        Instructions: " ++ pyStr instruction ++
                   "\n        ")

/-- The list comprehension `[format_alert(feature) for feature in fs]`:
features are formatted left to right and the first exception aborts. -/
def mapFormat : List Json → Except PyErr (List String)
  | [] => .ok []
  | f :: rest =>
    match format_alert f with
    | .error e => .error e
    | .ok s =>
      match mapFormat rest with
      | .error e => .error e
      | .ok ss => .ok (s :: ss)

/-- The body of `get_alerts` after the fetch (lines 63-72 of the
source): `if not data or "features" not in data`, then
`if not data["features"]`, then format and join.  The `or`
short-circuits, so `"features" in data` (which can raise) is only
evaluated on truthy `data`. -/
def handleAlertsData (data : Option Json) : Except PyErr String :=
  match data with
  | none => .ok "Unable to fetch alerts or no alerts found."
  | some d =>
    if truthy d = false then .ok "Unable to fetch alerts or no alerts found."
    else
      match pyContains "features" d with
      | .error e => .error e
      | .ok false => .ok "Unable to fetch alerts or no alerts found."
      | .ok true =>
        match pyGetItem d "features" with
        | .error e => .error e
        | .ok feats =>
          if truthy feats = false then .ok "No active alerts for this state."
          else
            match pyIter feats with
            | .error e => .error e
            | .ok elems =>
              match mapFormat elems with
              | .error e => .error e
              | .ok alerts => .ok (pyJoin "\n---\n" alerts)

/-- `get_alerts(state)`: build the URL, fetch through
`make_nws_request`, then run the response handling above. -/
def get_alerts (http : Request → Option Json) (state : String) : Except PyErr String :=
  let url := NWS_API_BASE ++ "/alerts/active/area/" ++ state
  let data := make_nws_request http url
  handleAlertsData data

/-- `echo_resource(message)`. -/
def echo_resource (message : String) : String :=
  "Resource echo: " ++ message

/-- The request `get_alerts state` hands to the HTTP layer. -/
def alertsRequest (state : String) : Request :=
  Request.mk (NWS_API_BASE ++ "/alerts/active/area/" ++ state) USER_AGENT
    "application/geo+json" 30

/-- The rendered template for a properties dictionary `pkvs`: what
`format_alert` returns when the feature carries `pkvs` as its
`properties`. -/
def formatProps (pkvs : List (String × Json)) : String :=
  "\n        Event: " ++ pyStr ((dictLookup pkvs "event").getD (Json.str "Unknown")) ++
  "\n        Area: " ++ pyStr ((dictLookup pkvs "areaDesc").getD (Json.str "Unknown")) ++
  "\n        Severity: " ++ pyStr ((dictLookup pkvs "severity").getD (Json.str "Unknown")) ++
  "\n        Description: " ++ pyStr ((dictLookup pkvs "description").getD (Json.str "No description available")) ++
  "\n        Instructions: " ++ pyStr ((dictLookup pkvs "instruction").getD (Json.str "No specific instructions provided")) ++
  "\n        "

/-- The substitution rule in the words of the specification: a field
present in the properties mapping is used verbatim (even the empty
string); an absent field yields the stated default. -/
def specField (pkvs : List (String × Json)) (key dflt : String) : String :=
  match dictLookup pkvs key with
  | some (Json.str s) => s
  | _ => dflt

/-- The fully-defaulted FormattedAlert block. -/
def defaultAlertBlock : String :=
  "\n        Event: Unknown\n        Area: Unknown\n        Severity: Unknown\n        Description: No description available\n        Instructions: No specific instructions provided\n        "

/-- The number of positions of `s` at which `pat` occurs as a substring. -/
def countOcc (pat : List Char) : List Char → Nat
  | [] => 0
  | c :: rest => (if pat.isPrefixOf (c :: rest) then 1 else 0) + countOcc pat rest

/-- A feature element on which `format_alert` cannot raise: a mapping
whose `properties` entry is itself a mapping. -/
def FeatureOk (j : Json) : Prop :=
  ∃ fkvs pkvs, j = Json.obj fkvs ∧ dictLookup fkvs "properties" = some (Json.obj pkvs)

/-- An HTTP outcome on which `get_alerts` stays on a defined path: no
response, a falsy response, or a mapping whose `features` entry (when
present and truthy) is a list of `FeatureOk` elements. -/
def RespOk : Option Json → Prop
  | none => True
  | some d =>
    truthy d = false ∨
      ∃ kvs, d = Json.obj kvs ∧
        (dictLookup kvs "features" = none ∨
          ∃ f, dictLookup kvs "features" = some f ∧
            (truthy f = false ∨ ∃ feats, f = Json.arr feats ∧ ∀ x ∈ feats, FeatureOk x))

/-- Did the call return a string (rather than raise)? -/
def isOkString : Except PyErr String → Bool
  | .ok _ => true
  | .error _ => false

set_option maxRecDepth 10000

theorem format_alert_obj (fkvs pkvs : List (String × Json))
    (h : dictLookup fkvs "properties" = some (Json.obj pkvs)) :
    format_alert (Json.obj fkvs) = .ok (formatProps pkvs) := by
  simp [format_alert, pyGetItem, h, pyGet, formatProps]

theorem dictLookup_mem {kvs : List (String × Json)} {key : String} {v : Json}
    (h : dictLookup kvs key = some v) : ∃ k2, (k2, v) ∈ kvs := by
  induction kvs with
  | nil => simp [dictLookup] at h
  | cons a rest ih =>
    obtain ⟨k1, v1⟩ := a
    by_cases hk : k1 = key
    · simp [dictLookup, hk] at h
      exact ⟨k1, by simp [h]⟩
    · simp [dictLookup, hk] at h
      obtain ⟨k2, hm⟩ := ih h
      exact ⟨k2, List.mem_cons_of_mem _ hm⟩

theorem pyStr_getD_specField (pkvs : List (String × Json))
    (h : ∀ p ∈ pkvs, ∃ s, p.2 = Json.str s) (key dflt : String) :
    pyStr ((dictLookup pkvs key).getD (Json.str dflt)) = specField pkvs key dflt := by
  cases e : dictLookup pkvs key with
  | none => simp [specField, e, pyStr]
  | some v =>
    obtain ⟨k2, hm⟩ := dictLookup_mem e
    obtain ⟨s, hs⟩ := h (k2, v) hm
    simp only at hs
    subst hs
    simp [specField, e, pyStr]

theorem mapFormat_ok (feats : List Json)
    (h : ∀ x ∈ feats, ∃ fkvs pkvs,
      x = Json.obj fkvs ∧ dictLookup fkvs "properties" = some (Json.obj pkvs)) :
    ∃ l, mapFormat feats = .ok l := by
  induction feats with
  | nil => exact ⟨[], rfl⟩
  | cons f rest ih =>
    obtain ⟨fkvs, pkvs, rfl, hp⟩ := h f (List.mem_cons_self _ _)
    obtain ⟨l, hl⟩ := ih fun x hx => h x (List.mem_cons_of_mem _ hx)
    exact ⟨formatProps pkvs :: l, by simp [mapFormat, format_alert_obj _ _ hp, hl]⟩

/-- Claim C1 (amended): for every region string, if the HTTP layer
yields no response (covering any network error, non-2xx status,
malformed body, or timeout) or yields a JSON mapping lacking a
`features` key, `get_alerts` returns exactly the string
"Unable to fetch alerts or no alerts found.". -/
theorem get_alerts_unable_fallback (state : String) (data : Option Json)
    (h : data = none ∨
      ∃ kvs, data = some (Json.obj kvs) ∧ dictLookup kvs "features" = none) :
    get_alerts (fun _ => data) state
      = .ok "Unable to fetch alerts or no alerts found." := by
  rcases h with rfl | ⟨kvs, rfl, hk⟩
  · rfl
  · cases kvs with
    | nil => rfl
    | cons a rest =>
      simp [get_alerts, make_nws_request, handleAlertsData, truthy, pyContains, hk]

/-- Witness for C1: no response at region CA hits the fallback. -/
theorem get_alerts_unable_fallback_witness :
    get_alerts (fun _ => none) "CA"
      = .ok "Unable to fetch alerts or no alerts found." :=
  get_alerts_unable_fallback "CA" none (Or.inl rfl)

/-- Counterexample to C1 as stated: the truthy non-mapping response `5`
is a JSON value lacking a `features` key, yet `get_alerts` raises
`TypeError` at `"features" not in data` instead of returning the
fallback string. -/
theorem get_alerts_unable_fallback_cex :
    get_alerts (fun _ => some (Json.num 5)) "CA" = .error PyErr.typeError
    ∧ get_alerts (fun _ => some (Json.num 5)) "CA"
        ≠ .ok "Unable to fetch alerts or no alerts found." :=
  ⟨rfl, fun h => Except.noConfusion h⟩

/-- Claim C2: for every region string, a response mapping whose
`features` entry is the empty sequence makes `get_alerts` return
exactly "No active alerts for this state.". -/
theorem get_alerts_empty_features (state : String) (kvs : List (String × Json))
    (h : dictLookup kvs "features" = some (Json.arr [])) :
    get_alerts (fun _ => some (Json.obj kvs)) state
      = .ok "No active alerts for this state." := by
  cases kvs with
  | nil => simp [dictLookup] at h
  | cons a rest =>
    simp [get_alerts, make_nws_request, handleAlertsData, truthy, pyContains,
      pyGetItem, h, pyIter]

/-- Witness for C2: the body with an empty features list at region CA. -/
theorem get_alerts_empty_features_witness :
    get_alerts (fun _ => some (Json.obj [("features", Json.arr [])])) "CA"
      = .ok "No active alerts for this state." :=
  get_alerts_empty_features "CA" [("features", Json.arr [])] rfl

/-- Claim C3 (amended): for every response whose `features` sequence has
exactly two elements, each a mapping carrying a `properties` mapping,
`get_alerts` returns the first FormattedAlert block, one inserted
separator, and the second FormattedAlert block, in input order; and on
separator-free blocks (the fully defaulted ones) the separator then
occurs exactly once in the result. -/
theorem get_alerts_two_feature_join (state : String)
    (fkvs1 pkvs1 fkvs2 pkvs2 : List (String × Json))
    (h1 : dictLookup fkvs1 "properties" = some (Json.obj pkvs1))
    (h2 : dictLookup fkvs2 "properties" = some (Json.obj pkvs2)) :
    get_alerts (fun _ => some (Json.obj
        [("features", Json.arr [Json.obj fkvs1, Json.obj fkvs2])])) state
      = .ok (formatProps pkvs1 ++ "\n---\n" ++ formatProps pkvs2)
    ∧ countOcc "\n---\n".data
        (defaultAlertBlock ++ "\n---\n" ++ defaultAlertBlock).data = 1 := by
  constructor
  · simp [get_alerts, make_nws_request, handleAlertsData, truthy, pyContains,
      pyGetItem, dictLookup, pyIter, mapFormat,
      format_alert_obj _ _ h1, format_alert_obj _ _ h2, pyJoin]
  · rfl

/-- Witness for C3: two features with empty properties mappings. -/
theorem get_alerts_two_feature_join_witness :
    get_alerts (fun _ => some (Json.obj [("features",
        Json.arr [Json.obj [("properties", Json.obj [])],
                  Json.obj [("properties", Json.obj [])]])])) "CA"
      = .ok (formatProps [] ++ "\n---\n" ++ formatProps [])
    ∧ countOcc "\n---\n".data
        (defaultAlertBlock ++ "\n---\n" ++ defaultAlertBlock).data = 1 :=
  get_alerts_two_feature_join "CA"
    [("properties", Json.obj [])] [] [("properties", Json.obj [])] [] rfl rfl

/-- Counterexample to C3 as stated: when the first feature carries the
separator itself as its `event` value, the joined result contains the
separator twice, not exactly once, although the features sequence has
exactly two elements, each with a `properties` mapping. -/
theorem get_alerts_two_feature_join_cex :
    get_alerts (fun _ => some (Json.obj [("features",
        Json.arr [Json.obj [("properties", Json.obj [("event", Json.str "\n---\n")])],
                  Json.obj [("properties", Json.obj [])]])])) "TX"
      = .ok ("\n        Event: \n---\n\n        Area: Unknown\n        Severity: Unknown\n        Description: No description available\n        Instructions: No specific instructions provided\n        "
          ++ "\n---\n" ++ defaultAlertBlock)
    ∧ countOcc "\n---\n".data
        ("\n        Event: \n---\n\n        Area: Unknown\n        Severity: Unknown\n        Description: No description available\n        Instructions: No specific instructions provided\n        "
          ++ "\n---\n" ++ defaultAlertBlock).data = 2 :=
  ⟨rfl, rfl⟩

/-- Claim C4: the response body with one feature whose properties
mapping is empty yields a single FormattedAlert in which the five
fields are exactly the default strings. -/
theorem get_alerts_all_defaults (state : String) :
    get_alerts (fun _ => some (Json.obj [("features",
        Json.arr [Json.obj [("properties", Json.obj [])]])])) state
      = .ok "\n        Event: Unknown\n        Area: Unknown\n        Severity: Unknown\n        Description: No description available\n        Instructions: No specific instructions provided\n        " :=
  rfl

/-- Claim C5 (amended): for every region string and every HTTP outcome
that is absent, falsy, or a mapping whose `features` entry, when
present and truthy, is a sequence of mappings each carrying a
`properties` mapping, `get_alerts` returns a string and never
propagates an error. -/
theorem get_alerts_always_string (state : String) (data : Option Json)
    (h : RespOk data) :
    isOkString (get_alerts (fun _ => data) state) = true := by
  cases data with
  | none => rfl
  | some d =>
    rcases h with hf | ⟨kvs, rfl, hrest⟩
    · simp [get_alerts, make_nws_request, handleAlertsData, hf, isOkString]
    · rcases hrest with hnone | ⟨f, hsome, hf⟩
      · cases kvs with
        | nil => rfl
        | cons a rest =>
          simp [get_alerts, make_nws_request, handleAlertsData, truthy,
            pyContains, hnone, isOkString]
      · cases kvs with
        | nil => simp [dictLookup] at hsome
        | cons a rest =>
          rcases hf with hfalsy | ⟨feats, rfl, hall⟩
          · have ht : truthy (Json.obj (a :: rest)) = true := by simp [truthy]
            simp [get_alerts, make_nws_request, handleAlertsData, ht,
              pyContains, pyGetItem, hsome, hfalsy, isOkString]
          · obtain ⟨l, hl⟩ := mapFormat_ok feats fun x hx => hall x hx
            cases feats with
            | nil =>
              simp [get_alerts, make_nws_request, handleAlertsData, truthy,
                pyContains, pyGetItem, hsome, isOkString]
            | cons f0 frest =>
              simp [get_alerts, make_nws_request, handleAlertsData, truthy,
                pyContains, pyGetItem, hsome, pyIter, hl, isOkString]

/-- Witness for C5: a well-shaped single-feature response at region CA. -/
theorem get_alerts_always_string_witness :
    isOkString (get_alerts (fun _ => some (Json.obj [("features",
        Json.arr [Json.obj [("properties", Json.obj [])]])])) "CA") = true :=
  get_alerts_always_string "CA" _
    (Or.inr ⟨_, rfl, Or.inr ⟨_, rfl, Or.inr ⟨_, rfl, fun x hx => by
      simp only [List.mem_singleton] at hx
      subst hx
      exact ⟨[("properties", Json.obj [])], [], rfl, rfl⟩⟩⟩⟩)

/-- Counterexample to C5 as stated: a feature element that lacks the
`properties` key makes `get_alerts` raise `KeyError` instead of
returning a string. -/
theorem get_alerts_always_string_cex :
    get_alerts (fun _ => some (Json.obj [("features",
        Json.arr [Json.obj []])])) "CA" = .error PyErr.keyError :=
  rfl

/-- Claim C6: when every value of the properties mapping is a string,
each of the five keys that is present contributes its value verbatim
to the FormattedAlert (even the empty string), and each absent key
contributes exactly its listed default; no other substitution occurs
(`specField` states the substitution rule in the words of the
specification). -/
theorem format_field_substitution (state : String) (pkvs : List (String × Json))
    (h : ∀ p ∈ pkvs, ∃ s, p.2 = Json.str s) :
    get_alerts (fun _ => some (Json.obj [("features",
        Json.arr [Json.obj [("properties", Json.obj pkvs)]])])) state
      = .ok ("\n        Event: " ++ specField pkvs "event" "Unknown" ++
             "\n        Area: " ++ specField pkvs "areaDesc" "Unknown" ++
             "\n        Severity: " ++ specField pkvs "severity" "Unknown" ++
             "\n        Description: " ++ specField pkvs "description" "No description available" ++
             "\n        Instructions: " ++ specField pkvs "instruction" "No specific instructions provided" ++
             "\n        ") := by
  simp [get_alerts, make_nws_request, handleAlertsData, truthy, pyContains,
    pyGetItem, dictLookup, pyIter, mapFormat, format_alert, pyGet, pyJoin,
    pyStr_getD_specField pkvs h]

/-- Witness for C6: a present-but-empty `event` is used as-is and the
four absent fields fall back to their defaults. -/
theorem format_field_substitution_witness :
    get_alerts (fun _ => some (Json.obj [("features",
        Json.arr [Json.obj [("properties",
          Json.obj [("event", Json.str "")])]])])) "CA"
      = .ok ("\n        Event: " ++ specField [("event", Json.str "")] "event" "Unknown" ++
             "\n        Area: " ++ specField [("event", Json.str "")] "areaDesc" "Unknown" ++
             "\n        Severity: " ++ specField [("event", Json.str "")] "severity" "Unknown" ++
             "\n        Description: " ++ specField [("event", Json.str "")] "description" "No description available" ++
             "\n        Instructions: " ++ specField [("event", Json.str "")] "instruction" "No specific instructions provided" ++
             "\n        ") :=
  format_field_substitution "CA" [("event", Json.str "")] fun p hp => by
    simp only [List.mem_singleton] at hp
    subst hp
    exact ⟨"", rfl⟩

/-- Claim C7: a feature mapping whose `properties` key is bound to a
mapping makes `format_alert` succeed with the rendered template, and a
feature mapping without the `properties` key reaches the unhandled
lookup failure (`KeyError`). -/
theorem format_alert_properties_contract (fkvs : List (String × Json)) :
    (∀ pkvs, dictLookup fkvs "properties" = some (Json.obj pkvs) →
        format_alert (Json.obj fkvs) = .ok (formatProps pkvs))
    ∧ (dictLookup fkvs "properties" = none →
        format_alert (Json.obj fkvs) = .error PyErr.keyError) := by
  constructor
  · intro pkvs h
    exact format_alert_obj fkvs pkvs h
  · intro h
    simp [format_alert, pyGetItem, h]

/-- Witness for C7: success on a feature with an empty properties
mapping; KeyError on a feature with no properties key. -/
theorem format_alert_properties_contract_witness :
    format_alert (Json.obj [("properties", Json.obj [])]) = .ok (formatProps [])
    ∧ format_alert (Json.obj []) = .error PyErr.keyError :=
  ⟨(format_alert_properties_contract [("properties", Json.obj [])]).1 [] rfl,
   (format_alert_properties_contract []).2 rfl⟩

/-- Claim C8: for every message string, including the empty string and
strings containing brace characters, `echo_resource` returns exactly
"Resource echo: " concatenated with the message; as a pure function
it has no side effects. -/
theorem echo_resource_spec (message : String) :
    echo_resource message = "Resource echo: " ++ message :=
  rfl

/-- Claim C9: for every region string, `get_alerts` consults the HTTP
layer exactly at `alertsRequest state`, whose URL is the base
concatenated with the literal path segment and the region unescaped,
whose headers are `User-Agent: weather-app/1.0` and
`Accept: application/geo+json`, and whose timeout is 30 seconds. -/
theorem get_alerts_request_spec (http : Request → Option Json) (state : String) :
    get_alerts http state = handleAlertsData (http (alertsRequest state))
    ∧ (alertsRequest state).url
        = "https://api.weather.gov" ++ "/alerts/active/area/" ++ state
    ∧ (alertsRequest state).user_agent = "weather-app/1.0"
    ∧ (alertsRequest state).accept = "application/geo+json"
    ∧ (alertsRequest state).timeout_s = 30 :=
  ⟨rfl, rfl, rfl, rfl, rfl⟩

/-- Claim C10: a response mapping whose `features` entry is any falsy
value (`null`, `False`, `0`, the empty string, the empty list or the
empty mapping) makes `get_alerts` return "No active alerts for this
state.", not the unable-to-fetch fallback: the emptiness test is
truthiness, not an empty-sequence check. -/
theorem get_alerts_falsy_features (state : String) (kvs : List (String × Json))
    (v : Json) (h : dictLookup kvs "features" = some v)
    (hv : truthy v = false) :
    get_alerts (fun _ => some (Json.obj kvs)) state
      = .ok "No active alerts for this state." := by
  cases kvs with
  | nil => simp [dictLookup] at h
  | cons a rest =>
    have ht : truthy (Json.obj (a :: rest)) = true := by simp [truthy]
    simp [get_alerts, make_nws_request, handleAlertsData, ht, pyContains,
      pyGetItem, h, hv]

/-- Witness for C10: `features` bound to `null` at region CA. -/
theorem get_alerts_falsy_features_witness :
    get_alerts (fun _ => some (Json.obj [("features", Json.null)])) "CA"
      = .ok "No active alerts for this state." :=
  get_alerts_falsy_features "CA" [("features", Json.null)] Json.null rfl rfl
